import Mathlib

/-!
Verification of the AI reliability/governance subsystem of the hr-backend
repository: the audit ledger (`app/services/audit.py`), the trust wrapper
(`app/services/ai_trust_service.py`, `app/schemas/trust.py`), the AI request
gateway (`app/services/ai_orchestrator.py`) and the task executor
(`app/services/task_service.py`), shallowly embedded in Lean.

Conventions of the embedding:
- Python floats used only as decimal confidence/bias scores are modelled as
  rationals (the code compares them to the literals 0.8, 0.5, 0.2 only).
- Fallible Python code is modelled with `Except`/`Option`; a caught-and-logged
  exception becomes a diagnostic string in the returned trace.
- The database session is modelled as always committing unless a boolean
  failure flag says otherwise; network I/O is modelled by an oracle giving
  the outcome of each HTTP attempt in order.
-/

namespace HRBackend

/-! ## Python values

`PyValue` models the Python runtime values the audit ledger can receive:
scalars, dicts, lists, objects exposing `model_dump()` (Pydantic models,
`vmodel d` carries the value that `model_dump()` returns) and every other
object (`vother`). Mutual inductives stand in for the nested
`List`-inside-constructor shape. -/

mutual

inductive PyValue : Type where
  | vstr : String → PyValue
  | vnum : ℚ → PyValue
  | vbool : Bool → PyValue
  | vnone : PyValue
  | vdict : PyFields → PyValue
  | vlist : PyList → PyValue
  | vmodel : PyValue → PyValue
  | vother : String → PyValue

inductive PyList : Type where
  | nil : PyList
  | cons : PyValue → PyList → PyList

inductive PyFields : Type where
  | fnil : PyFields
  | fcons : String → PyValue → PyFields → PyFields

end

/-- Build a `PyList` from a Lean list. -/
def PyList.ofList : List PyValue → PyList
  | [] => .nil
  | v :: rest => .cons v (PyList.ofList rest)

/-- Python `dict.__setitem__`-style update used by `dict.update`: replace the
value of an existing key in place, or append the key at the end. -/
def PyFields.setKey : PyFields → String → PyValue → PyFields
  | .fnil, k, v => .fcons k v .fnil
  | .fcons k' v' rest, k, v =>
      if k' = k then .fcons k' v rest else .fcons k' v' (PyFields.setKey rest k v)

/-! ## Audit Ledger — `AuditService.log_action` (app/services/audit.py)

The inner `sanitize` of `log_action`:

    def sanitize(obj):
        if hasattr(obj, "model_dump"):
            return obj.model_dump()
        if isinstance(obj, dict):
            return {k: sanitize(v) for k, v in obj.items()}
        if isinstance(obj, list):
            return [sanitize(i) for i in obj]
        return obj

Note that an object with `model_dump` is replaced by its dump *without*
recursing into the dump, and any other object falls through unchanged. -/

mutual

def sanitize : PyValue → PyValue
  | .vmodel d => d
  | .vdict fs => .vdict (sanitizeFields fs)
  | .vlist xs => .vlist (sanitizeList xs)
  | .vstr s => .vstr s
  | .vnum q => .vnum q
  | .vbool b => .vbool b
  | .vnone => .vnone
  | .vother t => .vother t

def sanitizeList : PyList → PyList
  | .nil => .nil
  | .cons v rest => .cons (sanitize v) (sanitizeList rest)

def sanitizeFields : PyFields → PyFields
  | .fnil => .fnil
  | .fcons k v rest => .fcons k (sanitize v) (sanitizeFields rest)

end

mutual

/-- A value made only of plain maps, lists and scalars (what the spec calls
"no opaque value"). -/
def isPlain : PyValue → Bool
  | .vstr _ => true
  | .vnum _ => true
  | .vbool _ => true
  | .vnone => true
  | .vdict fs => isPlainFields fs
  | .vlist xs => isPlainList xs
  | .vmodel _ => false
  | .vother _ => false

def isPlainList : PyList → Bool
  | .nil => true
  | .cons v rest => isPlain v && isPlainList rest

def isPlainFields : PyFields → Bool
  | .fnil => true
  | .fcons _ v rest => isPlain v && isPlainFields rest

end

mutual

/-- A value within the closed set of shapes `sanitize` converts: maps, lists,
scalars and `model_dump`-capable objects whose dump is plain. Excludes
`vother`, which `sanitize` passes through unchanged. -/
def sanitizable : PyValue → Bool
  | .vstr _ => true
  | .vnum _ => true
  | .vbool _ => true
  | .vnone => true
  | .vdict fs => sanitizableFields fs
  | .vlist xs => sanitizableList xs
  | .vmodel d => isPlain d
  | .vother _ => false

def sanitizableList : PyList → Bool
  | .nil => true
  | .cons v rest => sanitizable v && sanitizableList rest

def sanitizableFields : PyFields → Bool
  | .fnil => true
  | .fcons _ v rest => sanitizable v && sanitizableFields rest

end

/-- The argument list of one `AuditService.log_action` call. -/
structure AuditCallArgs : Type where
  action : String
  entity_type : String
  entity_id : Option Int := none
  user_id : Option Int := none
  user_role : Option String := none
  details : PyValue := .vdict .fnil
  ai_recommended : Bool := false
  organization_id : Option Int := none
  before_state : Option PyValue := none
  after_state : Option PyValue := none

/-- The stored `AuditLog` row, with the fields `log_action` populates. -/
structure AuditLog : Type where
  action : String
  entity_type : String
  entity_id : Option Int
  user_id : Option Int
  user_role : Option String
  details : PyValue
  ai_recommended : Bool
  organization_id : Option Int
  before_state : Option PyValue
  after_state : Option PyValue

/-- `AuditService.log_action`. `dbOk` models whether `db.add`/`db.flush`
succeed. Every internal failure is caught: the function returns the stored
row (or `none` on failure) plus the diagnostic messages it logged, and never
raises. `organization_id or self.org_id` is modelled with `ctxOrg` as the
service's `org_id`. -/
def log_action (dbOk : Bool) (ctxOrg : Option Int) (a : AuditCallArgs) :
    Option AuditLog × List String :=
  if dbOk then
    (some
      { action := a.action
        entity_type := a.entity_type
        entity_id := a.entity_id
        user_id := a.user_id
        user_role := a.user_role
        details := sanitize a.details
        ai_recommended := a.ai_recommended
        organization_id := match a.organization_id with
          | some o => some o
          | none => ctxOrg
        before_state := a.before_state.map sanitize
        after_state := a.after_state.map sanitize }, [])
  else (none, ["FAILED TO AUDIT LOG"])

/-! ## Trust schema — app/schemas/trust.py -/

/-- `ConfidenceLevel` enum. -/
inductive ConfidenceLevel : Type where
  | high
  | medium
  | low
deriving DecidableEq

def ConfidenceLevel.value : ConfidenceLevel → String
  | .high => "high"
  | .medium => "medium"
  | .low => "low"

/-- `SourceCitation` model. Similarity scores are decimal floats in [0,1],
modelled as rationals. -/
structure SourceCitation : Type where
  document_id : Int
  filename : String
  chunk_index : Int
  snippet : Option String := none
  similarity_score : ℚ := 0
  version : Option String := none
  source_date : Option String := none

/-- `TrustMetadata` model, with the defaults of its field declarations. -/
structure TrustMetadata : Type where
  confidence_score : ℚ := 0
  confidence_level : ConfidenceLevel := .low
  sources : List SourceCitation := []
  ai_model : String := "unknown"
  model_version : Option String := none
  reasoning : Option String := none
  timestamp : Option String := none
  request_id : Option String := none
  requires_human_confirmation : Bool := false
  is_fallback : Bool := false
  fallback_reason : Option String := none

/-- `TrustMetadata.from_score`: banding HIGH iff score ≥ 0.8, else MEDIUM iff
score ≥ 0.5, else LOW. `now` is the `datetime.now(timezone.utc).isoformat()`
string, passed explicitly. -/
def TrustMetadata.from_score (score : ℚ) (model : String)
    (sources : List SourceCitation) (reasoning : Option String)
    (requires_human_confirmation : Bool) (now : String) : TrustMetadata :=
  { confidence_score := score
    confidence_level :=
      if 8/10 ≤ score then .high else if 5/10 ≤ score then .medium else .low
    ai_model := model
    sources := sources
    reasoning := reasoning
    requires_human_confirmation := requires_human_confirmation
    timestamp := some now }

/-- `TrustMetadata.fallback`: confidence forced to 0/LOW, is_fallback set. -/
def TrustMetadata.fallback (reason : String) (now : String) : TrustMetadata :=
  { confidence_score := 0
    confidence_level := .low
    is_fallback := true
    fallback_reason := some reason
    timestamp := some now }

def optStrPy : Option String → PyValue
  | none => .vnone
  | some s => .vstr s

/-- `SourceCitation.model_dump()` as a plain dict. -/
def SourceCitation.model_dump (s : SourceCitation) : PyValue :=
  .vdict (.fcons "document_id" (.vnum s.document_id)
    (.fcons "filename" (.vstr s.filename)
      (.fcons "chunk_index" (.vnum s.chunk_index)
        (.fcons "snippet" (optStrPy s.snippet)
          (.fcons "similarity_score" (.vnum s.similarity_score)
            (.fcons "version" (optStrPy s.version)
              (.fcons "source_date" (optStrPy s.source_date) .fnil)))))))

/-- `TrustMetadata.model_dump()` as a plain dict. -/
def TrustMetadata.model_dump (t : TrustMetadata) : PyValue :=
  .vdict (.fcons "confidence_score" (.vnum t.confidence_score)
    (.fcons "confidence_level" (.vstr t.confidence_level.value)
      (.fcons "sources" (.vlist (PyList.ofList (t.sources.map SourceCitation.model_dump)))
        (.fcons "ai_model" (.vstr t.ai_model)
          (.fcons "model_version" (optStrPy t.model_version)
            (.fcons "reasoning" (optStrPy t.reasoning)
              (.fcons "timestamp" (optStrPy t.timestamp)
                (.fcons "request_id" (optStrPy t.request_id)
                  (.fcons "requires_human_confirmation" (.vbool t.requires_human_confirmation)
                    (.fcons "is_fallback" (.vbool t.is_fallback)
                      (.fcons "fallback_reason" (optStrPy t.fallback_reason) .fnil)))))))))))

/-- `TrustedAIResponse`: content string, trust metadata, optional data. -/
structure TrustedAIResponse : Type where
  content : String
  trust : TrustMetadata
  data : Option PyValue

/-! ## Trust wrapper — `AITrustService.wrap_and_log`
(app/services/ai_trust_service.py) -/

/-- Constructor state of `AITrustService` (db, organization, user). -/
structure TrustServiceCtx : Type where
  organization_id : Int
  user_id : Int
  user_role : String

/-- The keyword arguments of one `wrap_and_log` call. -/
structure WrapArgs : Type where
  content : PyValue
  action_type : String
  entity_type : String
  entity_id : Option Int := none
  confidence_score : ℚ := 0
  sources : Option (List SourceCitation) := none
  model_name : String := "unknown"
  reasoning : Option String := none
  is_fallback : Bool := false
  fallback_reason : Option String := none
  requires_human_confirmation : Bool := false
  details : Option PyFields := none
  data : Option PyValue := none

/-- Step 1 of `wrap_and_log`: construct the trust metadata. On the fallback
branch the passed score, sources and confirmation flag are ignored by
`TrustMetadata.fallback`. -/
def computeTrustMetadata (a : WrapArgs) (now : String) : TrustMetadata :=
  if a.is_fallback then
    TrustMetadata.fallback ((a.fallback_reason).getD "Unable to process request.") now
  else
    TrustMetadata.from_score a.confidence_score a.model_name
      ((a.sources).getD []) a.reasoning a.requires_human_confirmation now

/-- Python `str()` of a value used for `response_content = str(content)`:
a string renders as itself; the rendering of other objects is not inspected
by any claim and is abstracted to a constant. -/
def pyStr : PyValue → String
  | .vstr s => s
  | _ => "object"

/-- Step 4 of `wrap_and_log`: build the `TrustedAIResponse`, promoting a
structured `content` to `data` when `data` was not passed. -/
def buildResponse (content : PyValue) (data : Option PyValue)
    (tm : TrustMetadata) : TrustedAIResponse :=
  match data with
  | some d => { content := pyStr content, trust := tm, data := some d }
  | none =>
    match content with
    | .vstr s => { content := s, trust := tm, data := none }
    | .vmodel d => { content := "Structured AI Response", trust := tm, data := some d }
    | .vdict fs => { content := "Structured AI Response", trust := tm, data := some (.vdict fs) }
    | other => { content := pyStr other, trust := tm, data := none }

/-- The observable outcome of one `wrap_and_log` call: the returned response,
the `log_action` calls issued, the rows actually stored, and the diagnostic
messages emitted. -/
structure WrapResult : Type where
  response : TrustedAIResponse
  auditCalls : List AuditCallArgs
  stored : List AuditLog
  diag : List String

/-- `AITrustService.wrap_and_log`. `dbOk` is the audit write's success.
The ledger's `log_action` catches its own failures, so the wrapper's
`except` (the "CRITICAL" log) is unreachable and the diagnostics are the
ledger's. -/
def wrap_and_log (ctx : TrustServiceCtx) (dbOk : Bool) (now : String)
    (a : WrapArgs) : WrapResult :=
  let tm := computeTrustMetadata a now
  let log_details :=
    ((((a.details.getD .fnil).setKey "confidence_score" (.vnum a.confidence_score)).setKey
        "model" (.vstr a.model_name)).setKey
      "is_fallback" (.vbool a.is_fallback)).setKey "trust_metadata" tm.model_dump
  let call : AuditCallArgs :=
    { action := a.action_type
      entity_type := a.entity_type
      entity_id := a.entity_id
      user_id := some ctx.user_id
      user_role := some ctx.user_role
      details := .vdict log_details
      ai_recommended := true
      organization_id := some ctx.organization_id
      before_state := none
      after_state := some (.vdict (.fcons "trust_metadata" tm.model_dump .fnil)) }
  let la := log_action dbOk (some ctx.organization_id) call
  { response := buildResponse a.content a.data tm
    auditCalls := [call]
    stored := la.1.toList
    diag := la.2 }

/-! ## AI Request Gateway — `AIOrchestrator` (app/services/ai_orchestrator.py)

Network I/O is modelled by an oracle `Nat → AttemptResult` giving the outcome
of the n-th HTTP POST of the run (0-based); a `call_model` run numbers its
attempts consecutively across the primary and fallback sequences, so the
final index is the number of network attempts performed. -/

/-- Exceptions of app/core/exceptions.py that the gateway raises.
`aiError` is `AIError` (message as argument), `killSwitchError` is
`AIKillSwitchError`. -/
inductive AIException : Type where
  | aiError : String → AIException
  | killSwitchError : AIException
deriving DecidableEq

/-- The message `str(e)` renders for each exception. -/
def AIException.message : AIException → String
  | .aiError m => m
  | .killSwitchError => "AI services are currently offline for maintenance."

/-- `status_code` each exception class sets (both are 503-class). -/
def AIException.statusCode : AIException → Nat
  | .aiError _ => 503
  | .killSwitchError => 503

/-- Outcome of one HTTP POST to the completion provider:
timeout, an HTTP error status (≥ 400, `raise_for_status` raises), a 2xx
response whose body lacks `choices[0].message.content` (the generic
`except Exception` path, with the exception's rendering), or a 2xx response
with content. -/
inductive AttemptResult : Type where
  | timeout : AttemptResult
  | httpError : Nat → AttemptResult
  | malformed : String → AttemptResult
  | ok : String → AttemptResult

def openBrace : Char := '\x7b'

def closeBrace : Char := '\x7d'

/-- `re.search(r'\x7b.*\x7d', content, re.DOTALL)`: the greedy match runs
from the first opening brace to the last closing brace of the whole text,
provided the former precedes the latter. -/
def extractJson (content : String) : Option String :=
  let cs := content.toList
  match cs.findIdx? (fun c => c == openBrace), (cs.reverse).findIdx? (fun c => c == closeBrace) with
  | some i, some k =>
      let j := cs.length - 1 - k
      if i < j then some (String.mk ((cs.drop i).take (j - i + 1))) else none
  | _, _ => none

/-- Scan for the closing brace matching the opening brace that heads the
input, tracking depth; returns the consumed span. Helper of
`specFirstBalancedJson`. -/
def scanBalanced : Nat → List Char → List Char → Option (List Char)
  | _, _, [] => none
  | depth, acc, c :: rest =>
    if c = openBrace then scanBalanced (depth + 1) (c :: acc) rest
    else if c = closeBrace then
      if depth = 1 then some (c :: acc).reverse
      else scanBalanced (depth - 1) (c :: acc) rest
    else scanBalanced depth (c :: acc) rest

/-- Modelled from the spec: "best-effort-extract the first balanced JSON
object from the response text" — the span from the first opening brace to
its matching (depth-balanced) closing brace. Stated only to compare the
spec's words against `extractJson`, the code's behaviour. -/
def specFirstBalancedJson (content : String) : Option String :=
  let cs := content.toList
  match cs.findIdx? (fun c => c == openBrace) with
  | none => none
  | some i => (scanBalanced 0 [] (cs.drop i)).map String.mk

/-- One body execution of `_do_call` given the attempt's network outcome:
every raised exception is converted to `AIError`; in `json_output` mode a
found JSON span replaces the content, and when none is found the raw content
is returned (no error). -/
def attemptOnce (res : AttemptResult) (json_output : Bool) : Except AIException String :=
  match res with
  | .timeout => .error (.aiError "AI service reached timeout limit.")
  | .httpError status => .error (.aiError ("AI service returned error: " ++ toString status))
  | .malformed detail => .error (.aiError ("AI service error: " ++ detail))
  | .ok content =>
    if json_output then
      match extractJson content with
      | some j => .ok j
      | none => .ok content
    else .ok content

/-- `tenacity.wait_exponential(multiplier=1, min=4, max=10)` after the n-th
failed attempt (1-based): `min(10, max(4, 1 * 2^n))` seconds. -/
def tenacityWait (attemptNumber : Nat) : Nat :=
  min 10 (max 4 (2 ^ attemptNumber))

/-- Trace of one `_do_call` invocation: its result, the next unused network
attempt index, and the backoff waits slept between attempts, in order. -/
structure CallTrace : Type where
  result : Except AIException String
  nextIdx : Nat
  waits : List Nat

/-- The tenacity retry loop around `_do_call`'s body: `fuel` is the number of
attempts still allowed (`stop_after_attempt(3)` starts it at 3),
`attemptNumber` the 1-based number of the current attempt,
`retry_if_exception_type((RequestException, AIError))` retries every
exception the body raises (all are `AIError` here), `reraise=True` re-raises
the last error when the budget is exhausted. -/
def doCallLoop (oracle : Nat → AttemptResult) (json_output : Bool)
    (idx : Nat) (attemptNumber : Nat) : Nat → CallTrace
  | 0 => { result := .error (.aiError "retry budget exhausted"), nextIdx := idx, waits := [] }
  | fuel + 1 =>
    match attemptOnce (oracle idx) json_output with
    | .ok s => { result := .ok s, nextIdx := idx + 1, waits := [] }
    | .error e =>
      if fuel = 0 then { result := .error e, nextIdx := idx + 1, waits := [] }
      else
        let t := doCallLoop oracle json_output (idx + 1) (attemptNumber + 1) fuel
        { result := t.result, nextIdx := t.nextIdx, waits := tenacityWait attemptNumber :: t.waits }

/-- `AIOrchestrator._do_call` (the decorated function): up to 3 attempts. -/
def do_call (oracle : Nat → AttemptResult) (json_output : Bool) (idx : Nat) : CallTrace :=
  doCallLoop oracle json_output idx 1 3

/-- `settings.ai` of app/core/config.py (the fields the gateway reads). -/
structure AISettings : Type where
  openrouter_api_key : Option String
  model_name : String
  kill_switch : Bool

/-- `settings` fields the gateway reads. -/
structure GwConfig : Type where
  ai : AISettings
  ai_fallback_model : String

/-- Python truthiness of `not settings.ai.openrouter_api_key`:
missing or empty credential. -/
def keyMissing : Option String → Bool
  | none => true
  | some s => s.isEmpty

/-- Observable outcome of `call_model`/`analyze_text`: result, number of
network attempts performed, and all backoff waits slept. -/
structure GatewayResult : Type where
  result : Except AIException String
  attempts : Nat
  waits : List Nat

/-- `AIOrchestrator.call_model`: kill-switch guard, credential guard, primary
`_do_call`, then on any exception one fallback `_do_call` (which carries its
own retry decoration), and on double failure a single aggregated `AIError`
naming both causes. The governance hook (`db_session` path) is modelled
separately by `log_governance`; it catches internally and cannot change the
returned result. -/
def call_model (cfg : GwConfig) (oracle : Nat → AttemptResult) (json_output : Bool) :
    GatewayResult :=
  if cfg.ai.kill_switch then
    { result := .error .killSwitchError, attempts := 0, waits := [] }
  else if keyMissing cfg.ai.openrouter_api_key then
    { result := .error (.aiError "AI service configuration error."), attempts := 0, waits := [] }
  else
    let p := do_call oracle json_output 0
    match p.result with
    | .ok s => { result := .ok s, attempts := p.nextIdx, waits := p.waits }
    | .error e =>
      let f := do_call oracle json_output p.nextIdx
      match f.result with
      | .ok s => { result := .ok s, attempts := f.nextIdx, waits := p.waits ++ f.waits }
      | .error fe =>
        { result := .error (.aiError ("AI service completely unavailable (Primary: "
            ++ e.message ++ ", Fallback: " ++ fe.message ++ ")"))
          attempts := f.nextIdx
          waits := p.waits ++ f.waits }

/-- `AIOrchestrator.analyze_text`: `call_model` with `json_output=True`, then
`json.loads` on the returned text — modelled by the `parses` oracle — and on
decode failure a fresh `AIError("Failed to parse AI response.")`, raised
outside the retry loop. `.ok t` means text `t` parsed. -/
def analyze_text (cfg : GwConfig) (oracle : Nat → AttemptResult)
    (parses : String → Bool) : GatewayResult :=
  let g := call_model cfg oracle true
  match g.result with
  | .ok text =>
    if parses text then g
    else { result := .error (.aiError "Failed to parse AI response.")
           attempts := g.attempts, waits := g.waits }
  | .error _ => g

/-! ## Governance hook — `AIOrchestrator._log_governance` -/

/-- Python substring test `needle in hay` over char lists. -/
def containsSub (needle : List Char) : List Char → Bool
  | [] => needle.isEmpty
  | c :: rest => needle.isPrefixOf (c :: rest) || containsSub needle rest

/-- The heuristic bias check of `_log_governance`: 0.2 when the lowered
output mentions "reject" or "deny", else 0.0. -/
def biasScoreOf (output : String) : ℚ :=
  if containsSub "reject".toList (output.toLower).toList
      || containsSub "deny".toList (output.toLower).toList then 2/10 else 0

/-- The `EthicalAuditLog` row fields `_log_governance` populates (the model
class itself lives outside the gateway's file; the fields are those of the
constructor call). -/
structure EthicalAuditLog : Type where
  organization_id : Option Int
  domain : String
  model_version_id : Option Nat
  confidence_score : ℚ
  bias_score : ℚ
  flagged_for_review : Bool

/-- `AIOrchestrator._log_governance`: build the governance row with the
heuristic bias score, flag it for review above 0.5, and on a bias above 0.5
additionally write a "high_bias_detected" audit action. `registryHit` is the
id of the active `AIModelRegistry` row when the query finds one; `dbOk`
models the commit. Every failure is caught, so the whole call returns its
trace and never raises: on a failed commit nothing is stored and the
high-bias branch is skipped. -/
def log_governance (dbOk : Bool) (registryHit : Option Nat) (org : Option Int)
    (domain : String) (output : String) : Option EthicalAuditLog × List String :=
  let bias := biasScoreOf output
  if dbOk then
    (some
      { organization_id := org
        domain := domain
        model_version_id := registryHit
        confidence_score := 9/10
        bias_score := bias
        flagged_for_review := decide (5/10 < bias) },
     if 5/10 < bias then ["high_bias_detected"] else [])
  else (none, [])

/-! ## Task Executor — `TaskService` (app/services/task_service.py)

The `Task` model class (`app/models/task.py`) is not among the repository's
source files; its field list and the initial values `retries = 0`,
`status = "PENDING"` are modelled from the spec's data model and lifecycle
("created PENDING by a producer", Scenario E "retries stays 0"). The column
default of `max_retries` is unknown and is therefore a parameter of
`enqueue`. -/

inductive TaskStatus : Type where
  | pending
  | processing
  | completed
  | retrying
  | failed
deriving DecidableEq

/-- Modelled from the spec: the persisted `Task` record (`app/models/task.py`
is missing from the sources; fields follow §3 of the spec and the attribute
accesses in `task_service.py`). Timestamps are omitted: no claim reads
them. -/
structure Task : Type where
  id : Nat
  taskType : String
  status : TaskStatus
  payload : PyValue
  result : Option PyValue
  error : Option String
  retries : Nat
  max_retries : Nat
  organization_id : Option Int

/-- A task handler: the outcome of running it on the n-th dispatch of its
task (`.error msg` models a raised exception rendered by `str(e)`). -/
def Handler : Type := Nat → Except String PyValue

/-- The handler registry `TASK_HANDLERS`, keyed by task type. -/
def Registry : Type := String → Option Handler

/-- The literal `TASK_HANDLERS` dict: exactly one key, "resume_analysis".
The behaviour of its handler (`process_resume_analysis`) is irrelevant to
the claims settled here and is a parameter. -/
def TASK_HANDLERS (resumeHandler : Handler) : Registry :=
  fun t => if t = "resume_analysis" then some resumeHandler else none

/-- `TaskService.enqueue`: an unknown type raises
`ValueError("Unknown task type: <type>")` before anything is persisted;
otherwise a PENDING task with `retries = 0` is persisted and scheduled. -/
def enqueue (registry : Registry) (default_max_retries : Nat) (task_type : String)
    (payload : PyValue) (newId : Nat) (org : Option Int) : Except String Task :=
  match registry task_type with
  | none => .error ("Unknown task type: " ++ task_type)
  | some _ =>
    .ok { id := newId
          taskType := task_type
          status := .pending
          payload := payload
          result := none
          error := none
          retries := 0
          max_retries := default_max_retries
          organization_id := org }

/-- `TaskService.process_task` acting on a loaded task, with the database
commits succeeding: the idempotent-dispatch guard, the transition to
PROCESSING, the registry lookup (a missing handler records the configuration
error and returns), then the handler run with every exception caught —
success completes the task, failure records the message, increments
`retries` and applies the RETRYING/FAILED transition. `attempt` numbers this
dispatch (0-based) for the handler oracle. -/
def process_task (registry : Registry) (attempt : Nat) (task : Task) : Task :=
  if task.status = TaskStatus.pending ∨ task.status = TaskStatus.retrying then
    let task1 : Task := { task with status := TaskStatus.processing }
    match registry task1.taskType with
    | none => { task1 with error := some ("No handler for type " ++ task1.taskType) }
    | some h =>
      match h attempt with
      | .ok r => { task1 with status := TaskStatus.completed, result := some r }
      | .error msg =>
        let retries := task1.retries + 1
        { task1 with
            error := some msg
            retries := retries
            status := if retries < task1.max_retries then TaskStatus.retrying
              else TaskStatus.failed }
  else task

/-- `n` consecutive dispatches of the same task (re-dispatch of a RETRYING
task), numbering the attempts 0, 1, …, n-1. -/
def dispatchN (registry : Registry) (t : Task) : Nat → Task
  | 0 => t
  | n + 1 => process_task registry n (dispatchN registry t n)

/-! ## Helper lemmas -/

lemma buildResponse_trust (content : PyValue) (data : Option PyValue)
    (tm : TrustMetadata) : (buildResponse content data tm).trust = tm := by
  unfold buildResponse
  cases data with
  | some d => rfl
  | none => cases content <;> rfl

lemma wrap_and_log_trust (ctx : TrustServiceCtx) (dbOk : Bool) (now : String)
    (a : WrapArgs) :
    (wrap_and_log ctx dbOk now a).response.trust = computeTrustMetadata a now :=
  buildResponse_trust a.content a.data (computeTrustMetadata a now)

lemma computeTM_not_fallback (a : WrapArgs) (now : String) (h : a.is_fallback = false) :
    computeTrustMetadata a now =
      TrustMetadata.from_score a.confidence_score a.model_name
        (a.sources.getD []) a.reasoning a.requires_human_confirmation now := by
  unfold computeTrustMetadata
  rw [h]
  simp

lemma computeTM_fallback (a : WrapArgs) (now : String) (h : a.is_fallback = true) :
    computeTrustMetadata a now =
      TrustMetadata.fallback ((a.fallback_reason).getD "Unable to process request.") now := by
  unfold computeTrustMetadata
  rw [h]
  simp

lemma from_score_level (score : ℚ) (model : String) (sources : List SourceCitation)
    (reasoning : Option String) (rhc : Bool) (now : String) :
    (((TrustMetadata.from_score score model sources reasoning rhc now).confidence_level
        = ConfidenceLevel.high) ↔ 8/10 ≤ score)
    ∧ (((TrustMetadata.from_score score model sources reasoning rhc now).confidence_level
        = ConfidenceLevel.medium) ↔ (5/10 ≤ score ∧ score < 8/10))
    ∧ (((TrustMetadata.from_score score model sources reasoning rhc now).confidence_level
        = ConfidenceLevel.low) ↔ score < 5/10) := by
  unfold TrustMetadata.from_score
  dsimp only
  by_cases h8 : (8 : ℚ)/10 ≤ score
  · rw [if_pos h8]
    exact ⟨iff_of_true rfl h8,
      iff_of_false (by decide) fun h => by linarith [h.2],
      iff_of_false (by decide) fun h => by linarith⟩
  · by_cases h5 : (5 : ℚ)/10 ≤ score
    · rw [if_neg h8, if_pos h5]
      exact ⟨iff_of_false (by decide) h8,
        iff_of_true rfl ⟨h5, lt_of_not_ge h8⟩,
        iff_of_false (by decide) fun h => by linarith⟩
    · rw [if_neg h8, if_neg h5]
      exact ⟨iff_of_false (by decide) h8,
        iff_of_false (by decide) fun h => h5 h.1,
        iff_of_true rfl (lt_of_not_ge h5)⟩

/-! ## Sample inputs used by witnesses -/

/-- A sample trust-service context. -/
def ctxW : TrustServiceCtx := { organization_id := 1, user_id := 2, user_role := "hr_manager" }

/-- A sample `wrap_and_log` argument list with a high confidence score. -/
def argsW : WrapArgs :=
  { content := .vstr "x"
    action_type := "resume_screening"
    entity_type := "resume"
    confidence_score := 9/10
    model_name := "m" }

/-! ## C1 — confidence banding of the trust wrapper -/

/-- C1: for every `wrap_and_log` call, the returned trust metadata's level is
HIGH exactly when the score is ≥ 0.8, MEDIUM exactly when 0.5 ≤ score < 0.8,
LOW otherwise; and with `is_fallback` set the returned metadata has
confidence_score 0 and level LOW regardless of the passed score. -/
theorem claim_C1_confidence_banding (ctx : TrustServiceCtx) (dbOk : Bool)
    (now : String) (a : WrapArgs) :
    (((wrap_and_log ctx dbOk now { a with is_fallback := false }).response.trust.confidence_level
        = ConfidenceLevel.high) ↔ 8/10 ≤ a.confidence_score)
    ∧ (((wrap_and_log ctx dbOk now { a with is_fallback := false }).response.trust.confidence_level
        = ConfidenceLevel.medium) ↔ (5/10 ≤ a.confidence_score ∧ a.confidence_score < 8/10))
    ∧ (((wrap_and_log ctx dbOk now { a with is_fallback := false }).response.trust.confidence_level
        = ConfidenceLevel.low) ↔ a.confidence_score < 5/10)
    ∧ (wrap_and_log ctx dbOk now { a with is_fallback := true }).response.trust.confidence_score = 0
    ∧ (wrap_and_log ctx dbOk now { a with is_fallback := true }).response.trust.confidence_level
        = ConfidenceLevel.low := by
  simp only [wrap_and_log_trust]
  rw [computeTM_not_fallback _ _ rfl, computeTM_fallback _ _ rfl]
  have h := from_score_level a.confidence_score a.model_name (a.sources.getD [])
    a.reasoning a.requires_human_confirmation now
  exact ⟨h.1, h.2.1, h.2.2, rfl, rfl⟩

/-- C1 witness: at score 0.9 the non-fallback level is HIGH; at the same
score with `is_fallback` set, the score is forced to 0 and the level to
LOW. -/
theorem claim_C1_witness :
    (wrap_and_log ctxW true "t0" { argsW with is_fallback := false }).response.trust.confidence_level
      = ConfidenceLevel.high
    ∧ (wrap_and_log ctxW true "t0" { argsW with is_fallback := true }).response.trust.confidence_score = 0
    ∧ (wrap_and_log ctxW true "t0" { argsW with is_fallback := true }).response.trust.confidence_level
      = ConfidenceLevel.low := by
  have h := claim_C1_confidence_banding ctxW true "t0" argsW
  exact ⟨h.1.mpr (by norm_num [argsW]), h.2.2.2.1, h.2.2.2.2⟩

/-! ## Gateway sample configurations and loop lemmas -/

/-- A configuration with the kill switch active. -/
def cfgKS : GwConfig :=
  { ai := { openrouter_api_key := some "k"
            model_name := "google/gemini-2.0-flash-001"
            kill_switch := true }
    ai_fallback_model := "google/gemini-2.0-flash-lite-preview-02-05:free" }

/-- A healthy configuration: kill switch off, credential present. -/
def cfgOK : GwConfig :=
  { ai := { openrouter_api_key := some "k"
            model_name := "google/gemini-2.0-flash-001"
            kill_switch := false }
    ai_fallback_model := "google/gemini-2.0-flash-lite-preview-02-05:free" }

lemma doCallLoop_succ (oracle : Nat → AttemptResult) (jo : Bool) (idx an fuel : Nat) :
    doCallLoop oracle jo idx an (fuel + 1) =
      match attemptOnce (oracle idx) jo with
      | .ok s => { result := .ok s, nextIdx := idx + 1, waits := [] }
      | .error e =>
        if fuel = 0 then { result := .error e, nextIdx := idx + 1, waits := [] }
        else
          let t := doCallLoop oracle jo (idx + 1) (an + 1) fuel
          { result := t.result, nextIdx := t.nextIdx, waits := tenacityWait an :: t.waits } :=
  rfl

lemma doCall_ok1 (oracle : Nat → AttemptResult) (jo : Bool) (idx : Nat) (s : String)
    (h0 : attemptOnce (oracle idx) jo = .ok s) :
    do_call oracle jo idx = { result := .ok s, nextIdx := idx + 1, waits := [] } := by
  unfold do_call doCallLoop
  rw [h0]

lemma doCall_ok2 (oracle : Nat → AttemptResult) (jo : Bool) (idx : Nat)
    (e0 : AIException) (s : String)
    (h0 : attemptOnce (oracle idx) jo = .error e0)
    (h1 : attemptOnce (oracle (idx + 1)) jo = .ok s) :
    do_call oracle jo idx =
      { result := .ok s, nextIdx := idx + 2, waits := [tenacityWait 1] } := by
  unfold do_call doCallLoop
  rw [h0]
  unfold doCallLoop
  rw [h1]
  rfl

lemma doCall_ok3 (oracle : Nat → AttemptResult) (jo : Bool) (idx : Nat)
    (e0 e1 : AIException) (s : String)
    (h0 : attemptOnce (oracle idx) jo = .error e0)
    (h1 : attemptOnce (oracle (idx + 1)) jo = .error e1)
    (h2 : attemptOnce (oracle (idx + 2)) jo = .ok s) :
    do_call oracle jo idx =
      { result := .ok s, nextIdx := idx + 3,
        waits := [tenacityWait 1, tenacityWait 2] } := by
  unfold do_call doCallLoop
  rw [h0]
  unfold doCallLoop
  rw [h1]
  unfold doCallLoop
  rw [show idx + 1 + 1 = idx + 2 from rfl, h2]
  rfl

lemma doCall_fail3 (oracle : Nat → AttemptResult) (jo : Bool) (idx : Nat)
    (e0 e1 e2 : AIException)
    (h0 : attemptOnce (oracle idx) jo = .error e0)
    (h1 : attemptOnce (oracle (idx + 1)) jo = .error e1)
    (h2 : attemptOnce (oracle (idx + 2)) jo = .error e2) :
    do_call oracle jo idx =
      { result := .error e2, nextIdx := idx + 3,
        waits := [tenacityWait 1, tenacityWait 2] } := by
  unfold do_call doCallLoop
  rw [h0]
  unfold doCallLoop
  rw [h1]
  unfold doCallLoop
  rw [show idx + 1 + 1 = idx + 2 from rfl, h2]
  rfl

/-- Every `_do_call` run makes 1, 2 or 3 network attempts, with the tenacity
waits slept between consecutive attempts. -/
lemma doCall_attempt_cases (oracle : Nat → AttemptResult) (jo : Bool) (idx : Nat) :
    ((do_call oracle jo idx).nextIdx = idx + 1 ∧ (do_call oracle jo idx).waits = [])
    ∨ ((do_call oracle jo idx).nextIdx = idx + 2
        ∧ (do_call oracle jo idx).waits = [tenacityWait 1])
    ∨ ((do_call oracle jo idx).nextIdx = idx + 3
        ∧ (do_call oracle jo idx).waits = [tenacityWait 1, tenacityWait 2]) := by
  rcases h0 : attemptOnce (oracle idx) jo with e0 | s0
  · rcases h1 : attemptOnce (oracle (idx + 1)) jo with e1 | s1
    · rcases h2 : attemptOnce (oracle (idx + 2)) jo with e2 | s2
      · exact Or.inr (Or.inr (by rw [doCall_fail3 oracle jo idx e0 e1 e2 h0 h1 h2]; exact ⟨rfl, rfl⟩))
      · exact Or.inr (Or.inr (by rw [doCall_ok3 oracle jo idx e0 e1 s2 h0 h1 h2]; exact ⟨rfl, rfl⟩))
    · exact Or.inr (Or.inl (by rw [doCall_ok2 oracle jo idx e0 s1 h0 h1]; exact ⟨rfl, rfl⟩))
  · exact Or.inl (by rw [doCall_ok1 oracle jo idx s0 h0]; exact ⟨rfl, rfl⟩)

/-! ## C2 — kill switch blocks before any network attempt -/

/-- C2: with the kill switch active, `call_model` raises `AIKillSwitchError`
(a 503 service-unavailable-class error) immediately and performs zero
network attempts. -/
theorem claim_C2_kill_switch (cfg : GwConfig) (oracle : Nat → AttemptResult)
    (json_output : Bool) (h : cfg.ai.kill_switch = true) :
    (call_model cfg oracle json_output).result = .error .killSwitchError
    ∧ (call_model cfg oracle json_output).attempts = 0
    ∧ AIException.killSwitchError.statusCode = 503 := by
  unfold call_model
  rw [h]
  exact ⟨rfl, rfl, rfl⟩

/-- C2 witness: the kill-switch configuration, against a provider that would
answer, yields the kill-switch error with zero attempts. -/
theorem claim_C2_witness :
    (call_model cfgKS (fun _ => .ok "hi") true).result = .error .killSwitchError
    ∧ (call_model cfgKS (fun _ => .ok "hi") true).attempts = 0
    ∧ AIException.killSwitchError.statusCode = 503 :=
  claim_C2_kill_switch cfgKS (fun _ => .ok "hi") true rfl

/-! ## C3 — what the retry loop actually retries -/

/-- A provider that answers every attempt with HTTP 404 — a client-class
error, neither a timeout nor 5xx. -/
def oracle404 : Nat → AttemptResult := fun _ => .httpError 404

/-- C3 counterexample: a 404 response — not a timeout/5xx-class transient
failure — is nevertheless retried: the attempt sequence consumes all 3
network attempts before re-raising, because `raise_for_status` errors of any
class become `AIError`, which the retry predicate accepts. -/
theorem claim_C3_counterexample :
    (do_call oracle404 true 0).nextIdx = 3
    ∧ (do_call oracle404 true 0).result
        = .error (.aiError "AI service returned error: 404") :=
  ⟨rfl, rfl⟩

/-- C3 as amended: within one model's sequence `_do_call` makes at most 3
attempts (at least 1), sleeping `wait_exponential(multiplier=1, min=4,
max=10)` — which clamps to 4 seconds between the three attempts and always
lies in [4, 10] — between consecutive attempts; every in-call failure
(timeouts, HTTP error statuses of any class, malformed bodies — all mapped
to `AIError`) is retried; and the kill-switch and missing-credential guards
sit before the loop, so those errors make zero network attempts and are
never retried. -/
theorem claim_C3_retry_policy :
    (∀ oracle jo idx,
      ((do_call oracle jo idx).nextIdx = idx + 1 ∧ (do_call oracle jo idx).waits = [])
      ∨ ((do_call oracle jo idx).nextIdx = idx + 2
          ∧ (do_call oracle jo idx).waits = [tenacityWait 1])
      ∨ ((do_call oracle jo idx).nextIdx = idx + 3
          ∧ (do_call oracle jo idx).waits = [tenacityWait 1, tenacityWait 2]))
    ∧ tenacityWait 1 = 4 ∧ tenacityWait 2 = 4
    ∧ (∀ n, 4 ≤ tenacityWait n ∧ tenacityWait n ≤ 10)
    ∧ (∀ oracle jo idx e, attemptOnce (oracle idx) jo = .error e →
        idx + 2 ≤ (do_call oracle jo idx).nextIdx)
    ∧ (∀ cfg oracle jo, cfg.ai.kill_switch = true →
        (call_model cfg oracle jo).attempts = 0)
    ∧ (∀ cfg oracle jo, cfg.ai.kill_switch = false →
        keyMissing cfg.ai.openrouter_api_key = true →
        (call_model cfg oracle jo).attempts = 0) := by
  refine ⟨doCall_attempt_cases, by decide, by decide, ?_, ?_, ?_, ?_⟩
  · intro n
    exact ⟨le_min (by norm_num) (le_max_left 4 (2 ^ n)), min_le_left 10 _⟩
  · intro oracle jo idx e h0
    rcases h1 : attemptOnce (oracle (idx + 1)) jo with e1 | s1
    · rcases h2 : attemptOnce (oracle (idx + 2)) jo with e2 | s2
      · rw [doCall_fail3 oracle jo idx e e1 e2 h0 h1 h2]; dsimp only; omega
      · rw [doCall_ok3 oracle jo idx e e1 s2 h0 h1 h2]; dsimp only; omega
    · rw [doCall_ok2 oracle jo idx e s1 h0 h1]
  · intro cfg oracle jo hks
    unfold call_model
    rw [hks]
    rfl
  · intro cfg oracle jo hks hkey
    unfold call_model
    rw [hks, hkey]
    rfl

/-- C3 witness: with a provider that times out, the second attempt happens
(a retry is performed) and the kill-switch path makes zero attempts. -/
theorem claim_C3_witness :
    0 + 2 ≤ (do_call (fun _ => AttemptResult.timeout) true 0).nextIdx
    ∧ (call_model cfgKS (fun _ => AttemptResult.timeout) true).attempts = 0 :=
  ⟨claim_C3_retry_policy.2.2.2.2.1 (fun _ => AttemptResult.timeout) true 0
      (.aiError "AI service reached timeout limit.") rfl,
    claim_C3_retry_policy.2.2.2.2.2.1 cfgKS (fun _ => AttemptResult.timeout) true rfl⟩

/-! ## C4 — fallback behaviour after primary exhaustion -/

/-- A provider failing attempts 0–3 and answering attempt 4: the primary
exhausts its 3 attempts, the first fallback attempt fails, the second
succeeds. -/
def oracleC4 : Nat → AttemptResult := fun n => if n ≤ 3 then .timeout else .ok "ok"

/-- C4 counterexample: the fallback model is NOT attempted exactly once —
`cls._do_call` keeps its retry decoration, so the fallback gets its own
3-attempt budget. Here the whole call succeeds with 5 network attempts:
3 primary and 2 fallback, where a single fallback attempt would have
failed the call at 4 attempts. -/
theorem claim_C4_counterexample :
    (call_model cfgOK oracleC4 false).result = .ok "ok"
    ∧ (call_model cfgOK oracleC4 false).attempts = 5 :=
  ⟨rfl, rfl⟩

/-- C4 as amended: when every attempt fails, the primary consumes 3 attempts
and the fallback its own 3 (6 network attempts total, not 3 + 1), and the
caller receives exactly one aggregated `AIError` carrying both the primary
cause and the fallback cause — never a partial result. -/
theorem claim_C4_aggregate_failure (cfg : GwConfig) (oracle : Nat → AttemptResult)
    (jo : Bool) (msg : Nat → String)
    (hks : cfg.ai.kill_switch = false)
    (hkey : keyMissing cfg.ai.openrouter_api_key = false)
    (hfail : ∀ n, n < 6 → attemptOnce (oracle n) jo = .error (.aiError (msg n))) :
    (call_model cfg oracle jo).result = .error (.aiError
      ("AI service completely unavailable (Primary: " ++ msg 2
        ++ ", Fallback: " ++ msg 5 ++ ")"))
    ∧ (call_model cfg oracle jo).attempts = 6 := by
  unfold call_model
  rw [hks, hkey]
  have hp := doCall_fail3 oracle jo 0 (.aiError (msg 0)) (.aiError (msg 1))
    (.aiError (msg 2)) (hfail 0 (by omega)) (hfail 1 (by omega)) (hfail 2 (by omega))
  have hf := doCall_fail3 oracle jo 3 (.aiError (msg 3)) (.aiError (msg 4))
    (.aiError (msg 5)) (hfail 3 (by omega)) (hfail 4 (by omega)) (hfail 5 (by omega))
  rw [show (0 : Nat) + 3 = 3 from rfl] at hp
  rw [hp]
  dsimp only
  rw [hf]
  exact ⟨rfl, rfl⟩

/-- C4 witness: all six attempts time out; the one aggregated error carries
both causes and six attempts were made. -/
theorem claim_C4_witness :
    (call_model cfgOK (fun _ => AttemptResult.timeout) true).result
      = .error (.aiError ("AI service completely unavailable (Primary: "
          ++ "AI service reached timeout limit."
          ++ ", Fallback: " ++ "AI service reached timeout limit." ++ ")"))
    ∧ (call_model cfgOK (fun _ => AttemptResult.timeout) true).attempts = 6 :=
  claim_C4_aggregate_failure cfgOK (fun _ => AttemptResult.timeout) true
    (fun _ => "AI service reached timeout limit.") rfl rfl (fun _ _ => rfl)

/-! ## C5 — structured-output extraction and the parse failure -/

/-- C5 counterexample: on a response containing two JSON objects the code
does not extract the first balanced object — the greedy regex takes the span
from the first opening to the last closing brace, which is not that
object (and is not valid JSON). -/
theorem claim_C5_counterexample :
    extractJson "\x7b\x7d \x7b\x7d" = some "\x7b\x7d \x7b\x7d"
    ∧ specFirstBalancedJson "\x7b\x7d \x7b\x7d" = some "\x7b\x7d"
    ∧ extractJson "\x7b\x7d \x7b\x7d" ≠ specFirstBalancedJson "\x7b\x7d \x7b\x7d" := by
  refine ⟨by decide, by decide, by decide⟩

/-- C5 as amended: in structured-output mode the gateway extracts the greedy
span from the first opening brace to the last closing brace of the response
(tolerating surrounding prose/code fences), passing the raw text through
when no such span exists; the subsequent decode failure in `analyze_text`
raises `AIError("Failed to parse AI response.")` outside the retry loop, so
it is never retried (the network attempt count stays at 1) — but it shares
the `AIError` class with transport failures, differing only in message. -/
theorem claim_C5_extraction_parse (cfg : GwConfig) (oracle : Nat → AttemptResult)
    (parses : String → Bool) (content : String)
    (hks : cfg.ai.kill_switch = false)
    (hkey : keyMissing cfg.ai.openrouter_api_key = false)
    (h0 : oracle 0 = .ok content) :
    (call_model cfg oracle true).result = .ok ((extractJson content).getD content)
    ∧ (call_model cfg oracle true).attempts = 1
    ∧ (parses ((extractJson content).getD content) = false →
        (analyze_text cfg oracle parses).result
            = .error (.aiError "Failed to parse AI response.")
        ∧ (analyze_text cfg oracle parses).attempts = 1) := by
  have hext : attemptOnce (oracle 0) true = .ok ((extractJson content).getD content) := by
    rw [h0]
    unfold attemptOnce
    cases hx : extractJson content with
    | none => simp [hx]
    | some j => simp [hx]
  have hcm : call_model cfg oracle true =
      { result := .ok ((extractJson content).getD content), attempts := 1, waits := [] } := by
    unfold call_model
    rw [hks, hkey]
    rw [doCall_ok1 oracle true 0 _ hext]
    rfl
  refine ⟨by rw [hcm], by rw [hcm], ?_⟩
  intro hp
  unfold analyze_text
  rw [hcm]
  dsimp only
  rw [hp]
  exact ⟨rfl, rfl⟩

/-- C5 witness: a response with no JSON object at all is passed through
verbatim, and when it fails to parse the caller sees the distinct parse
`AIError` after exactly one network attempt. -/
theorem claim_C5_witness :
    (analyze_text cfgOK (fun _ => .ok "no json here") (fun _ => false)).result
      = .error (.aiError "Failed to parse AI response.")
    ∧ (analyze_text cfgOK (fun _ => .ok "no json here") (fun _ => false)).attempts = 1 :=
  (claim_C5_extraction_parse cfgOK (fun _ => .ok "no json here") (fun _ => false)
    "no json here" rfl rfl rfl).2.2 rfl

/-! ## C6 — audit payload sanitization -/

mutual

theorem sanitizable_isPlain : ∀ v : PyValue, sanitizable v = true → isPlain (sanitize v) = true
  | .vstr _, _ => rfl
  | .vnum _, _ => rfl
  | .vbool _, _ => rfl
  | .vnone, _ => rfl
  | .vdict fs, h => sanitizableFields_isPlain fs h
  | .vlist xs, h => sanitizableList_isPlain xs h
  | .vmodel _, h => h
  | .vother _, h => absurd h Bool.false_ne_true

theorem sanitizableList_isPlain :
    ∀ xs : PyList, sanitizableList xs = true → isPlainList (sanitizeList xs) = true
  | .nil, _ => rfl
  | .cons v rest, h => by
      have h2 : sanitizable v = true ∧ sanitizableList rest = true := by
        simpa [sanitizableList] using h
      show (isPlain (sanitize v) && isPlainList (sanitizeList rest)) = true
      rw [sanitizable_isPlain v h2.1, sanitizableList_isPlain rest h2.2]
      rfl

theorem sanitizableFields_isPlain :
    ∀ fs : PyFields, sanitizableFields fs = true → isPlainFields (sanitizeFields fs) = true
  | .fnil, _ => rfl
  | .fcons _ v rest, h => by
      have h2 : sanitizable v = true ∧ sanitizableFields rest = true := by
        simpa [sanitizableFields] using h
      show (isPlain (sanitize v) && isPlainFields (sanitizeFields rest)) = true
      rw [sanitizable_isPlain v h2.1, sanitizableFields_isPlain rest h2.2]
      rfl

end

/-- A `details` dict holding an object that is neither a dict, a list, a
scalar nor `model_dump`-capable (e.g. a raw `datetime.datetime`). -/
def otherDetails : PyValue := .vdict (.fcons "when" (.vother "datetime.datetime") .fnil)

/-- C6 counterexample: `sanitize` passes any value outside its three checked
shapes through unchanged, so a non-plain (opaque) value inside `details`
reaches the stored entry as-is. -/
theorem claim_C6_counterexample :
    ((log_action true (some 1)
        { action := "update", entity_type := "leave_request",
          details := otherDetails }).1.map fun e => e.details)
      = some (.vdict (.fcons "when" (.vother "datetime.datetime") .fnil))
    ∧ isPlain (.vdict (.fcons "when" (.vother "datetime.datetime") .fnil)) = false :=
  ⟨rfl, rfl⟩

/-- C6 as amended: `details`/`before_state`/`after_state` are recursively
sanitized, and the stored values are guaranteed plain for every input built
from the closed set of shapes the visitor checks — maps, lists, scalars and
`model_dump`-capable objects with plain dumps; a value of any other shape is
passed through to storage unchanged. -/
theorem claim_C6_sanitization (ctxOrg : Option Int) (a : AuditCallArgs)
    (hd : sanitizable a.details = true)
    (hb : a.before_state.all sanitizable = true)
    (ha : a.after_state.all sanitizable = true) :
    ((log_action true ctxOrg a).1.all fun e =>
      isPlain e.details && e.before_state.all isPlain && e.after_state.all isPlain) = true := by
  have hopt : ∀ o : Option PyValue, o.all sanitizable = true →
      (o.map sanitize).all isPlain = true := by
    intro o ho
    cases o with
    | none => rfl
    | some v => exact sanitizable_isPlain v (by simpa using ho)
  unfold log_action
  show (isPlain (sanitize a.details)
      && (a.before_state.map sanitize).all isPlain
      && (a.after_state.map sanitize).all isPlain) = true
  rw [sanitizable_isPlain a.details hd, hopt a.before_state hb, hopt a.after_state ha]
  rfl

/-- C6 witness: a plain `details` dict with `before_state`/`after_state`
absent is stored plain. -/
theorem claim_C6_witness :
    ((log_action true (some 1)
        { action := "approve", entity_type := "leave_request",
          details := .vdict (.fcons "status" (.vstr "APPROVED") .fnil) }).1.all fun e =>
      isPlain e.details && e.before_state.all isPlain && e.after_state.all isPlain) = true :=
  claim_C6_sanitization (some 1)
    { action := "approve", entity_type := "leave_request",
      details := .vdict (.fcons "status" (.vstr "APPROVED") .fnil) } rfl rfl rfl

/-! ## C7 — the trust wrapper's audit write -/

/-- C7: every `wrap_and_log` call issues exactly one ledger `log_action`
call, with `action = action_type`, `ai_recommended = true` and the computed
trust metadata embedded in `after_state`; the returned response does not
depend on whether the audit write succeeds, and a failed write surfaces only
as the diagnostic event (no exception, no changed response). -/
theorem claim_C7_audit_write (ctx : TrustServiceCtx) (dbOk : Bool) (now : String)
    (a : WrapArgs) :
    (∃ c : AuditCallArgs,
      (wrap_and_log ctx dbOk now a).auditCalls = [c]
      ∧ c.action = a.action_type
      ∧ c.ai_recommended = true
      ∧ c.after_state = some (.vdict (.fcons "trust_metadata"
          ((wrap_and_log ctx dbOk now a).response.trust.model_dump) .fnil)))
    ∧ (wrap_and_log ctx false now a).response = (wrap_and_log ctx true now a).response
    ∧ (wrap_and_log ctx false now a).diag = ["FAILED TO AUDIT LOG"]
    ∧ (wrap_and_log ctx true now a).diag = [] := by
  refine ⟨⟨_, rfl, rfl, rfl, ?_⟩, rfl, rfl, rfl⟩
  rw [wrap_and_log_trust]

/-! ## C8 — task lifecycle under the executor's step relation -/

/-- After `j` consecutive failing dispatches (1 ≤ j ≤ max_retries) of a task
that started PENDING with `retries = 0`, the task carries `retries = j`, the
last failure message, and status RETRYING below the budget, FAILED at it. -/
lemma dispatch_fail_run (registry : Registry) (h : Handler) (t0 : Task)
    (msg : Nat → String)
    (hreg : registry t0.taskType = some h)
    (hstat : t0.status = .pending) (hr : t0.retries = 0) :
    ∀ j, 1 ≤ j → j ≤ t0.max_retries → (∀ i, i < j → h i = .error (msg i)) →
      dispatchN registry t0 j =
        { t0 with
            status := if j < t0.max_retries then TaskStatus.retrying else TaskStatus.failed
            retries := j
            error := some (msg (j - 1)) } := by
  intro j
  induction j with
  | zero => intro h1; exact absurd h1 (by omega)
  | succ n ih =>
    intro _ hle hfail
    by_cases hn : n = 0
    · subst hn
      show process_task registry 0 (dispatchN registry t0 0) = _
      unfold dispatchN process_task
      rw [hstat, if_pos (Or.inl rfl)]
      dsimp only
      rw [hreg]
      dsimp only
      rw [hfail 0 (by omega), hr]
    · have hprev := ih (by omega) (by omega) (fun i hi => hfail i (by omega))
      show process_task registry n (dispatchN registry t0 n) = _
      rw [hprev]
      have hlt : n < t0.max_retries := by omega
      unfold process_task
      rw [if_pos hlt]
      rw [if_pos (Or.inr rfl)]
      dsimp only
      rw [hreg]
      dsimp only
      rw [hfail n (by omega)]
      rfl

/-- One successful dispatch of a runnable task completes it and stores the
result, leaving `retries` untouched. -/
lemma dispatch_success (registry : Registry) (h : Handler) (task : Task)
    (attempt : Nat) (r : PyValue)
    (hreg : registry task.taskType = some h)
    (hstat : task.status = TaskStatus.pending ∨ task.status = TaskStatus.retrying)
    (hok : h attempt = .ok r) :
    process_task registry attempt task =
      { task with status := TaskStatus.completed, result := some r } := by
  unfold process_task
  rw [if_pos hstat]
  dsimp only
  rw [hreg]
  dsimp only
  rw [hok]

/-- C8: under the executor's step relation a task whose handler fails on
`max_retries` consecutive dispatches ends FAILED with
`retries = max_retries` and the exception message recorded in `error`
(handler exceptions are caught into the task state, never propagated); a
task whose handler succeeds on some attempt k ≤ max_retries ends COMPLETED
with its result set and `retries = k - 1`. -/
theorem claim_C8_task_lifecycle (registry : Registry) (h : Handler) (t0 : Task)
    (msg : Nat → String) (r : PyValue) (k : Nat)
    (hreg : registry t0.taskType = some h)
    (hstat : t0.status = .pending) (hr : t0.retries = 0)
    (hm : 1 ≤ t0.max_retries) :
    ((∀ i, i < t0.max_retries → h i = .error (msg i)) →
      (dispatchN registry t0 t0.max_retries).status = TaskStatus.failed
      ∧ (dispatchN registry t0 t0.max_retries).retries = t0.max_retries
      ∧ (dispatchN registry t0 t0.max_retries).error = some (msg (t0.max_retries - 1)))
    ∧ (1 ≤ k → k ≤ t0.max_retries →
      (∀ i, i + 1 < k → h i = .error (msg i)) → h (k - 1) = .ok r →
      (dispatchN registry t0 k).status = TaskStatus.completed
      ∧ (dispatchN registry t0 k).result = some r
      ∧ (dispatchN registry t0 k).retries = k - 1) := by
  constructor
  · intro hfail
    rw [dispatch_fail_run registry h t0 msg hreg hstat hr t0.max_retries hm le_rfl hfail]
    rw [if_neg (by omega)]
    exact ⟨rfl, rfl, rfl⟩
  · intro hk1 hkle hfail hok
    rcases Nat.exists_eq_add_of_le hk1 with ⟨n, hn⟩
    rw [show (1 + n : Nat) = n + 1 from by omega] at hn
    subst hn
    by_cases hn0 : n = 0
    · subst hn0
      have h1 : dispatchN registry t0 (0 + 1) = process_task registry 0 t0 := rfl
      rw [h1, dispatch_success registry h t0 0 r hreg (Or.inl hstat) hok]
      exact ⟨rfl, rfl, hr⟩
    · have hprev := dispatch_fail_run registry h t0 msg hreg hstat hr n (by omega)
        (by omega) (fun i hi => hfail i (by omega))
      rw [if_pos (show n < t0.max_retries by omega)] at hprev
      have h1 : dispatchN registry t0 (n + 1)
          = process_task registry n (dispatchN registry t0 n) := rfl
      rw [h1, hprev, dispatch_success registry h { t0 with status := TaskStatus.retrying, retries := n, error := some (msg (n - 1)) } n r hreg (Or.inr rfl) hok]
      exact ⟨rfl, rfl, rfl⟩

/-- The sample PENDING task used by witnesses (Scenario D's shape:
`max_retries = 3`). -/
def t0W : Task :=
  { id := 1
    taskType := "resume_analysis"
    status := .pending
    payload := .vnone
    result := none
    error := none
    retries := 0
    max_retries := 3
    organization_id := none }

/-- A handler raising on every attempt. -/
def failH : Handler := fun _ => .error "boom"

/-- A handler raising on attempts 0 and 1 and succeeding on attempt 2
(Scenario D). -/
def succH : Handler := fun i => if i < 2 then .error "boom" else .ok (.vstr "done")

/-- C8 witness: with `max_retries = 3`, an always-failing handler leaves the
task FAILED with `retries = 3` and the message recorded; a handler failing
twice then succeeding leaves it COMPLETED with `retries = 2` and the result
set. -/
theorem claim_C8_witness :
    ((dispatchN (TASK_HANDLERS failH) t0W 3).status = TaskStatus.failed
      ∧ (dispatchN (TASK_HANDLERS failH) t0W 3).retries = 3
      ∧ (dispatchN (TASK_HANDLERS failH) t0W 3).error = some "boom")
    ∧ ((dispatchN (TASK_HANDLERS succH) t0W 3).status = TaskStatus.completed
      ∧ (dispatchN (TASK_HANDLERS succH) t0W 3).result = some (.vstr "done")
      ∧ (dispatchN (TASK_HANDLERS succH) t0W 3).retries = 2) := by
  constructor
  · exact (claim_C8_task_lifecycle (TASK_HANDLERS failH) failH t0W (fun _ => "boom")
      .vnone 1 rfl rfl rfl (by decide)).1 (fun i _ => rfl)
  · exact (claim_C8_task_lifecycle (TASK_HANDLERS succH) succH t0W (fun _ => "boom")
      (.vstr "done") 3 rfl rfl rfl (by decide)).2 (by decide) (by decide)
      (fun i hi => by
        have hi2 : i < 2 := by
          have h3 : t0W.max_retries = 3 := rfl
          omega
        interval_cases i <;> rfl) rfl

/-! ## C9 — unknown task types are rejected at enqueue -/

/-- C9 counterexample: enqueuing a task of type "bogus" does not create a
task carrying the error "No handler for type bogus" — `enqueue` raises
`ValueError("Unknown task type: bogus")` before anything is persisted, so
the enqueue-then-dispatch path of the claim cannot happen. -/
theorem claim_C9_counterexample :
    enqueue (TASK_HANDLERS (fun _ => .ok .vnone)) 3 "bogus" .vnone 1 none
      = .error "Unknown task type: bogus" :=
  rfl

/-- C9 as amended: `enqueue` rejects an unregistered type with
`ValueError("Unknown task type: <type>")` and persists nothing; only a task
already persisted with an unregistered type and dispatched directly gets the
configuration error "No handler for type <type>" recorded, with `retries`
unchanged (and status left PROCESSING). -/
theorem claim_C9_unknown_type (registry : Registry) (dmr : Nat) (ty : String)
    (payload : PyValue) (newId : Nat) (org : Option Int) (attempt : Nat) (task : Task)
    (hty : registry ty = none)
    (htask : registry task.taskType = none)
    (hstat : task.status = .pending) :
    enqueue registry dmr ty payload newId org = .error ("Unknown task type: " ++ ty)
    ∧ (process_task registry attempt task).error
        = some ("No handler for type " ++ task.taskType)
    ∧ (process_task registry attempt task).retries = task.retries
    ∧ (process_task registry attempt task).status = TaskStatus.processing := by
  constructor
  · unfold enqueue
    rw [hty]
  · unfold process_task
    rw [hstat, if_pos (Or.inl rfl)]
    dsimp only
    rw [htask]
    exact ⟨rfl, rfl, rfl⟩

/-- A task persisted with an unregistered type (as if the registry changed
between enqueue and dispatch). -/
def bogusTask : Task :=
  { id := 2
    taskType := "bogus"
    status := .pending
    payload := .vnone
    result := none
    error := none
    retries := 0
    max_retries := 3
    organization_id := none }

/-- C9 witness: the concrete registry (single key "resume_analysis") rejects
type "bogus" at enqueue; dispatching an already-persisted "bogus" task
records the configuration error with `retries` still 0. -/
theorem claim_C9_witness :
    enqueue (TASK_HANDLERS failH) 3 "bogus" (.vstr "p") 7 (some 1)
      = .error "Unknown task type: bogus"
    ∧ (process_task (TASK_HANDLERS failH) 0 bogusTask).error
        = some "No handler for type bogus"
    ∧ (process_task (TASK_HANDLERS failH) 0 bogusTask).retries = 0
    ∧ (process_task (TASK_HANDLERS failH) 0 bogusTask).status = TaskStatus.processing := by
  have h := claim_C9_unknown_type (TASK_HANDLERS failH) 3 "bogus" (.vstr "p") 7 (some 1)
    0 bogusTask rfl rfl rfl
  exact h

/-! ## C10 — the heuristic bias score never reaches the review threshold -/

/-- C10: for every model output, the heuristic bias score is at most 0.2,
strictly below the 0.5 review threshold, so every governance entry the
gateway writes has `flagged_for_review = false` and the high-bias audit
branch never runs. -/
theorem claim_C10_bias_bound (dbOk : Bool) (registryHit : Option Nat)
    (org : Option Int) (domain output : String) :
    biasScoreOf output ≤ 2/10
    ∧ (2 : ℚ)/10 < 5/10
    ∧ ((log_governance dbOk registryHit org domain output).1.all
        fun e => !e.flagged_for_review) = true
    ∧ (log_governance dbOk registryHit org domain output).2 = [] := by
  have hb : biasScoreOf output = 0 ∨ biasScoreOf output = 2/10 := by
    unfold biasScoreOf
    by_cases hc : (containsSub "reject".toList (output.toLower).toList
        || containsSub "deny".toList (output.toLower).toList) = true
    · right; rw [if_pos hc]
    · left; rw [if_neg hc]
  have hle : biasScoreOf output ≤ 2/10 := by
    rcases hb with hbe | hbe
    · rw [hbe]; norm_num
    · rw [hbe]
  have hnlt : ¬((5 : ℚ)/10 < biasScoreOf output) := by
    rcases hb with hbe | hbe
    · rw [hbe]; norm_num
    · rw [hbe]; norm_num
  refine ⟨hle, by norm_num, ?_, ?_⟩
  · cases dbOk with
    | false => rfl
    | true =>
      unfold log_governance
      dsimp only
      show (!decide ((5 : ℚ)/10 < biasScoreOf output)) = true
      rw [decide_eq_false hnlt]
      rfl
  · cases dbOk with
    | false => rfl
    | true =>
      unfold log_governance
      dsimp only
      rw [if_neg hnlt]
      rfl

end HRBackend
